import Mathlib

/-!
Verification of the voice-emotion-recognition service
(`services/voice-emotion-recognition/app/main.py`).

The service exposes a single `/predict` endpoint.  We give a shallow
embedding of the endpoint body `predict_emotion`:

* the heterogeneous raw-label value returned by the external classifier
  is modelled as the variant type `TextLab` (scalar-wrapping object with
  an `item` method, list/tuple, or plain text);
* the top-score value is the variant type `ScoreVal` (object with an
  `item` method, or a plain number);
* the score vector is the variant type `OutProb` (numpy-convertible,
  torch tensor, or anything else); numbers are modelled as `ℚ`
  since the endpoint only passes them through, without arithmetic;
* the request-time environment (classifier handle set or not, upload
  read outcome, inference outcome, unlink outcome) is `PredictEnv`, and
  `predict_emotion` maps it to the HTTP response together with the
  temp-file effects, following Python semantics for
  `try/finally` (an exception raised by the `finally` block replaces the
  in-flight exception) and for the outer `except Exception` handler.
-/

/-- Canonical labels, `EMOTION_LABELS` at main.py line 37. -/
def EMOTION_LABELS : List String := ["angry", "happy", "neutral", "sad"]

/-- Short-code table `emotion_mapping`, main.py lines 126-136. -/
def emotion_mapping : List (String × String) :=
  [("hap", "happy"),
   ("sad", "sad"),
   ("ang", "angry"),
   ("neu", "neutral"),
   ("exc", "happy"),
   ("fru", "sad"),
   ("fea", "sad"),
   ("sur", "happy"),
   ("xxx", "neutral")]

/-- Shapes the external classifier may return for `text_lab` (main.py
lines 113-120): an object with an `item` method, a list or tuple, or
anything else (taken through `str`). -/
inductive TextLab where
  | itemable (s : String)
  | seq (xs : List String)
  | text (s : String)
deriving DecidableEq

/-- Raw label extraction, main.py lines 115-120: `text_lab.item()` when
the value has an `item` attribute, the first element of a list/tuple
(or the literal `neutral` when it is empty), else `str(text_lab)`. -/
def emotion_raw_of : TextLab → String
  | TextLab.itemable s => s
  | TextLab.seq xs => if xs.length > 0 then xs.headD "" else "neutral"
  | TextLab.text s => s

/-- Character set of the second strip at main.py line 123: an opening
bracket, a closing bracket, an apostrophe (code 39) and a double quote
(code 34). -/
def stripSet : List Char := ['[', ']', Char.ofNat 39, Char.ofNat 34]

/-- Python `s.strip(chars)`: remove leading and trailing characters that
belong to the given set. -/
def pyStripSet (cs : List Char) (s : String) : String :=
  String.mk (((s.toList.dropWhile (fun c => c ∈ cs)).reverse.dropWhile
    (fun c => c ∈ cs)).reverse)

/-- Python `s.strip()`: remove leading and trailing whitespace. -/
def pyStrip (s : String) : String :=
  String.mk (((s.toList.dropWhile Char.isWhitespace).reverse.dropWhile
    Char.isWhitespace).reverse)

/-- Python `s.lower()`, character by character. -/
def pyLower (s : String) : String := String.mk (s.toList.map Char.toLower)

/-- Label cleanup, main.py line 123: `emotion_raw.strip().strip("[]...")`. -/
def cleanLabel (s : String) : String := pyStripSet stripSet (pyStrip s)

/-- Intermediate `emotion` variable, main.py lines 138-142: a verbatim
member of `EMOTION_LABELS` is kept; otherwise the lowercased label is
looked up in `emotion_mapping`, defaulting to the raw label itself. -/
def emotionFromMapping (emotion_raw : String) : String :=
  if emotion_raw ∈ EMOTION_LABELS then emotion_raw
  else ((emotion_mapping.lookup (pyLower emotion_raw)).getD emotion_raw)

/-- Label mapping step, main.py lines 138-146, including the final guard
that replaces anything non-canonical by `neutral`. -/
def mapEmotion (emotion_raw : String) : String :=
  if emotionFromMapping emotion_raw ∈ EMOTION_LABELS then
    emotionFromMapping emotion_raw
  else "neutral"

/-- Full label pipeline of the endpoint, main.py lines 115-146. -/
def labelOf (tl : TextLab) : String := mapEmotion (cleanLabel (emotion_raw_of tl))

-- Quick sanity examples for the pipeline (kept as anonymous examples).
example : labelOf (TextLab.text "hap") = "happy" := by decide
example : labelOf (TextLab.seq []) = "neutral" := by decide
example : mapEmotion "xyz" = "neutral" := by decide

/-- Shapes the external classifier may return for the top score `score`
(main.py lines 148-152): an object with an `item` method, or a plain
number. -/
inductive ScoreVal where
  | itemable (x : ℚ)
  | plain (x : ℚ)
deriving DecidableEq

/-- Confidence extraction, main.py lines 148-152: `float(score.item())`
when `score` has an `item` attribute, `float(score)` otherwise.  Either
way the number passes through unchanged. -/
def confidenceOf : ScoreVal → ℚ
  | ScoreVal.itemable x => x
  | ScoreVal.plain x => x

/-- Shapes the external classifier may return for `out_prob` (main.py
lines 154-161): a numpy-convertible object, a torch tensor, or anything
else (which triggers the uniform fallback). -/
inductive OutProb where
  | numpyLike (v : List ℚ)
  | tensor (v : List ℚ)
  | other
deriving DecidableEq

/-- Score-vector extraction, main.py lines 154-161.  `squeeze` on an
already-flat vector is the identity, so both converting branches yield
the vector itself; the fallback is `[0.25] * len(EMOTION_LABELS)`. -/
def scores_array_of : OutProb → List ℚ
  | OutProb.numpyLike v => v
  | OutProb.tensor v => v
  | OutProb.other => List.replicate EMOTION_LABELS.length 0.25

/-- Score-dictionary construction, main.py lines 163-169: one entry per
canonical label, in list order; position `i` of the score vector when it
exists, `0.0` otherwise.  Python dicts preserve insertion order, so the
dict is modelled as an association list in insertion order. -/
def emotion_scores (scores_array : List ℚ) : List (String × ℚ) :=
  EMOTION_LABELS.enum.map fun p =>
    (p.2, if p.1 < scores_array.length then scores_array.getD p.1 0 else 0)

/-- The four values returned by `classifier.classify_file` (main.py
line 111). -/
structure ClassifierOut where
  out_prob : OutProb
  score : ScoreVal
  index : Int
  text_lab : TextLab
deriving DecidableEq

/-- Body of the JSON response on success, main.py lines 173-177. -/
structure PredictResponse where
  emotion : String
  confidence : ℚ
  scores : List (String × ℚ)
deriving DecidableEq

/-- An HTTPException as raised by the endpoint: status code and detail. -/
structure HTTPErr where
  status : Nat
  detail : String
deriving DecidableEq

/-- Success payload computed from the classifier output, main.py
lines 113-177. -/
def buildResponse (out : ClassifierOut) : PredictResponse :=
  { emotion := labelOf out.text_lab
    confidence := confidenceOf out.score
    scores := emotion_scores (scores_array_of out.out_prob) }

/-- Request-time environment of one `/predict` call: whether the global
`classifier` is set, the outcome of `await audio_file.read()`, the
outcome of `classifier.classify_file` and the outcome of
`os.unlink(temp_path)`.  Errors carry `str(e)`. -/
structure PredictEnv where
  classifierLoaded : Bool
  readResult : Except String Unit
  inference : Except String ClassifierOut
  unlink : Except String Unit

/-- Observable outcome of one `/predict` call: the HTTP response plus
the temp-file effects of the request. -/
structure PredictOutcome where
  response : Except HTTPErr PredictResponse
  tempCreated : Bool
  inferenceCalled : Bool
  unlinkCalled : Bool
  tempDeleted : Bool

/-- Detail string of the 503 raised at main.py lines 93-97. -/
def modelNotLoadedDetail : String :=
  "Model not loaded. Service is initializing or failed to load model."

/-- The `/predict` endpoint `predict_emotion`, main.py lines 77-189.

Control flow of the source: the 503 guard runs before the outer `try`;
inside the outer `try`, the upload is read, the temp file written, and
the inner `try/finally` runs inference with `os.unlink` in the
`finally`.  Python semantics: the `finally` block runs on every exit of
the inner `try`, and an exception raised by `os.unlink` itself replaces
any in-flight exception; the outer handler re-raises `HTTPException`
(none can originate inside the `try`) and converts every other
exception `e` to a 500 with detail `"Prediction failed: " + str(e)`. -/
def predict_emotion (env : PredictEnv) : PredictOutcome :=
  if env.classifierLoaded then
    match env.readResult with
    | Except.error e =>
        { response := Except.error ⟨500, "Prediction failed: " ++ e⟩
          tempCreated := false, inferenceCalled := false
          unlinkCalled := false, tempDeleted := false }
    | Except.ok _ =>
        match env.inference with
        | Except.error e =>
            match env.unlink with
            | Except.ok _ =>
                { response := Except.error ⟨500, "Prediction failed: " ++ e⟩
                  tempCreated := true, inferenceCalled := true
                  unlinkCalled := true, tempDeleted := true }
            | Except.error ue =>
                { response := Except.error ⟨500, "Prediction failed: " ++ ue⟩
                  tempCreated := true, inferenceCalled := true
                  unlinkCalled := true, tempDeleted := false }
        | Except.ok out =>
            match env.unlink with
            | Except.ok _ =>
                { response := Except.ok (buildResponse out)
                  tempCreated := true, inferenceCalled := true
                  unlinkCalled := true, tempDeleted := true }
            | Except.error ue =>
                { response := Except.error ⟨500, "Prediction failed: " ++ ue⟩
                  tempCreated := true, inferenceCalled := true
                  unlinkCalled := true, tempDeleted := false }
  else
    { response := Except.error ⟨503, modelNotLoadedDetail⟩
      tempCreated := false, inferenceCalled := false
      unlinkCalled := false, tempDeleted := false }

/-- Helper: the final guard at main.py lines 144-146 forces the mapped
label into the canonical set. -/
theorem mapEmotion_mem (s : String) : mapEmotion s ∈ EMOTION_LABELS := by
  unfold mapEmotion
  by_cases h : emotionFromMapping s ∈ EMOTION_LABELS
  · rw [if_pos h]; exact h
  · rw [if_neg h]; decide

/-- Environment of the C1 scenario: handle set, upload read succeeds,
classifier returns raw label `hap`, top score `0.82`, score vector
`[0.82, 0.05, 0.08, 0.05]`, unlink succeeds. -/
def c1_env : PredictEnv :=
  ⟨true, Except.ok (),
    Except.ok ⟨OutProb.tensor [0.82, 0.05, 0.08, 0.05],
      ScoreVal.plain 0.82, 0, TextLab.text "hap"⟩,
    Except.ok ()⟩

/-- C1 counterexample: on the scenario input the endpoint returns
emotion `happy` and confidence `0.82`, but the scores dict is built
positionally from the vector, so `angry` gets `0.82` and `happy` gets
`0.05` — not the `{angry: 0.05, happy: 0.82, ...}` the claim states. -/
theorem C1_counterexample :
    (predict_emotion c1_env).response.toOption =
      some ⟨"happy", 0.82,
        [("angry", 0.82), ("happy", 0.05), ("neutral", 0.08), ("sad", 0.05)]⟩ ∧
    (predict_emotion c1_env).response.toOption ≠
      some ⟨"happy", 0.82,
        [("angry", 0.05), ("happy", 0.82), ("neutral", 0.08), ("sad", 0.05)]⟩ := by
  have hact : (predict_emotion c1_env).response.toOption =
      some ⟨"happy", 0.82,
        [("angry", 0.82), ("happy", 0.05), ("neutral", 0.08), ("sad", 0.05)]⟩ := rfl
  refine ⟨hact, ?_⟩
  rw [hact]
  intro h
  simp only [Option.some.injEq, PredictResponse.mk.injEq, List.cons.injEq,
    Prod.mk.injEq] at h
  exact absurd h.2.2.1.2 (by norm_num)

/-- C1 (amended): on the scenario input the response is
`{emotion: happy, confidence: 0.82,
scores: {angry: 0.82, happy: 0.05, neutral: 0.08, sad: 0.05}}` — the
score vector is spread over the canonical labels in positional order. -/
theorem C1_theorem :
    (predict_emotion c1_env).response.toOption =
      some ⟨"happy", 0.82,
        [("angry", 0.82), ("happy", 0.05), ("neutral", 0.08), ("sad", 0.05)]⟩ :=
  rfl

/-- Environment of the C2 counterexample: inference raises `boom`, the
cleanup `os.unlink` raises `gone`. -/
def c2_env : PredictEnv :=
  ⟨true, Except.ok (), Except.error "boom", Except.error "gone"⟩

/-- C2 counterexample: when inference raises `boom` and the unlink in
the `finally` block raises `gone`, the temp file is not deleted and the
500 detail reports the unlink error, masking the inference error. -/
theorem C2_counterexample :
    (predict_emotion c2_env).response =
      Except.error ⟨500, "Prediction failed: " ++ "gone"⟩ ∧
    "Prediction failed: " ++ "gone" ≠ "Prediction failed: " ++ "boom" ∧
    (predict_emotion c2_env).tempDeleted = false := by
  exact ⟨rfl, by decide, rfl⟩

/-- C2 (amended): whenever the handle is set and the upload read
succeeds, the temp file is created and the unlink is invoked on every
exit path — inference success or inference error alike — and the file
is deleted whenever the unlink itself succeeds.  (If the unlink raises,
Python's try/finally semantics make its error replace the in-flight
inference error, as the counterexample shows.) -/
theorem C2_theorem (env : PredictEnv)
    (hl : env.classifierLoaded = true) (hr : env.readResult = Except.ok ()) :
    (predict_emotion env).tempCreated = true ∧
    (predict_emotion env).unlinkCalled = true ∧
    (env.unlink = Except.ok () → (predict_emotion env).tempDeleted = true) := by
  cases hi : env.inference <;> cases hu : env.unlink <;>
    simp [predict_emotion, hl, hr, hi, hu]

/-- Environment of the C2 witness: inference raises, unlink succeeds. -/
def c2w_env : PredictEnv :=
  ⟨true, Except.ok (), Except.error "boom", Except.ok ()⟩

/-- C2 witness: concrete instance of the amended claim. -/
theorem C2_witness :
    (predict_emotion c2w_env).tempCreated = true ∧
    (predict_emotion c2w_env).unlinkCalled = true ∧
    (predict_emotion c2w_env).tempDeleted = true := by
  have h := C2_theorem c2w_env rfl rfl
  exact ⟨h.1, h.2.1, h.2.2 rfl⟩

/-- C3: every raw label the classifier can emit is mapped into the
canonical four-label set, and the unrecognized label `xyz` maps to
`neutral`. -/
theorem C3_theorem :
    (∀ tl : TextLab, labelOf tl ∈ EMOTION_LABELS) ∧
    labelOf (TextLab.text "xyz") = "neutral" :=
  ⟨fun _ => mapEmotion_mem _, by decide⟩

/-- C4: each canonical label maps to itself, and every short code of
the table maps per the table: hap, exc, sur to happy; sad, fru, fea to
sad; ang to angry; neu, xxx to neutral. -/
theorem C4_theorem :
    mapEmotion "angry" = "angry" ∧ mapEmotion "happy" = "happy" ∧
    mapEmotion "neutral" = "neutral" ∧ mapEmotion "sad" = "sad" ∧
    mapEmotion "hap" = "happy" ∧ mapEmotion "exc" = "happy" ∧
    mapEmotion "sur" = "happy" ∧ mapEmotion "fru" = "sad" ∧
    mapEmotion "fea" = "sad" ∧ mapEmotion "ang" = "angry" ∧
    mapEmotion "neu" = "neutral" ∧ mapEmotion "xxx" = "neutral" := by
  decide

/-- C5: the scores dict always carries exactly the four canonical keys
in canonical order; a label whose index lies beyond the score vector
gets `0.0`; and when the score vector is unavailable every value is
`0.25`. -/
theorem C5_theorem :
    (∀ scores_array : List ℚ,
      (emotion_scores scores_array).map Prod.fst = EMOTION_LABELS) ∧
    (∀ (scores_array : List ℚ) (i : Nat), i < EMOTION_LABELS.length →
      scores_array.length ≤ i →
      ((emotion_scores scores_array).getD i ("", 0)).2 = 0) ∧
    (∀ op : OutProb, op = OutProb.other →
      emotion_scores (scores_array_of op) =
        [("angry", 0.25), ("happy", 0.25), ("neutral", 0.25), ("sad", 0.25)]) := by
  refine ⟨fun _ => rfl, ?_, ?_⟩
  · intro a i h4 hlen
    have h4' : i < 4 := by simpa [EMOTION_LABELS] using h4
    interval_cases i
    · show (if 0 < a.length then a.getD 0 0 else 0) = 0
      rw [if_neg (by omega)]
    · show (if 1 < a.length then a.getD 1 0 else 0) = 0
      rw [if_neg (by omega)]
    · show (if 2 < a.length then a.getD 2 0 else 0) = 0
      rw [if_neg (by omega)]
    · show (if 3 < a.length then a.getD 3 0 else 0) = 0
      rw [if_neg (by omega)]
  · intro op h
    subst h
    rfl

/-- C5 witness: concrete instances — index 2 on a one-element vector
gives `0.0`, and the unavailable vector gives the uniform dict. -/
theorem C5_witness :
    ((emotion_scores ([0.5] : List ℚ)).getD 2 ("", 0)).2 = 0 ∧
    emotion_scores (scores_array_of OutProb.other) =
      [("angry", 0.25), ("happy", 0.25), ("neutral", 0.25), ("sad", 0.25)] :=
  ⟨C5_theorem.2.1 [0.5] 2 (by decide) (by decide),
   C5_theorem.2.2 OutProb.other rfl⟩

/-- C6: with the classifier handle unset, the endpoint answers 503 with
a detail starting with `Model not loaded`, creates no temp file and
never reaches inference. -/
theorem C6_theorem (env : PredictEnv) (h : env.classifierLoaded = false) :
    (predict_emotion env).response = Except.error ⟨503, modelNotLoadedDetail⟩ ∧
    ("Model not loaded".toList.isPrefixOf modelNotLoadedDetail.toList = true) ∧
    (predict_emotion env).tempCreated = false ∧
    (predict_emotion env).inferenceCalled = false := by
  refine ⟨?_, by decide, ?_, ?_⟩ <;> simp [predict_emotion, h]

/-- Environment of the C6 witness: handle unset. -/
def c6_env : PredictEnv :=
  ⟨false, Except.ok (), Except.error "x", Except.ok ()⟩

/-- C6 witness: concrete unset-handle request. -/
theorem C6_witness :
    (predict_emotion c6_env).response =
      Except.error ⟨503, modelNotLoadedDetail⟩ ∧
    (predict_emotion c6_env).inferenceCalled = false := by
  have h := C6_theorem c6_env rfl
  exact ⟨h.1, h.2.2.2⟩

/-- C7: with the handle set, a failing upload read — or a failing
inference followed by a successful cleanup — yields a 500 whose detail
is `Prediction failed: ` followed by the exception's string. -/
theorem C7_theorem (env : PredictEnv) (e : String)
    (hl : env.classifierLoaded = true)
    (hcase : env.readResult = Except.error e ∨
      (env.readResult = Except.ok () ∧ env.inference = Except.error e ∧
        env.unlink = Except.ok ())) :
    (predict_emotion env).response =
      Except.error ⟨500, "Prediction failed: " ++ e⟩ := by
  rcases hcase with hr | ⟨hr, hi, hu⟩
  · simp [predict_emotion, hl, hr]
  · simp [predict_emotion, hl, hr, hi, hu]

/-- Environment of the C7 witness: the upload read raises. -/
def c7_env : PredictEnv :=
  ⟨true, Except.error "read failed", Except.error "boom", Except.ok ()⟩

/-- C7 witness: concrete failing read. -/
theorem C7_witness :
    (predict_emotion c7_env).response =
      Except.error ⟨500, "Prediction failed: " ++ "read failed"⟩ :=
  C7_theorem c7_env "read failed" rfl (Or.inl rfl)

/-- Environment of the C8 counterexample: the classifier's top score is
`1.5`. -/
def c8_env : PredictEnv :=
  ⟨true, Except.ok (),
    Except.ok ⟨OutProb.tensor [0.5, 0.2, 0.2, 0.1],
      ScoreVal.plain 1.5, 0, TextLab.text "hap"⟩,
    Except.ok ()⟩

/-- C8 counterexample: the endpoint passes the top score through
unclamped, so a classifier output with top score `1.5` produces a
response confidence of `1.5`, which is not in `[0, 1]`. -/
theorem C8_counterexample :
    (predict_emotion c8_env).response.toOption.map PredictResponse.confidence =
      some 1.5 ∧
    ¬ ((1.5 : ℚ) ≤ 1) :=
  ⟨rfl, by norm_num⟩

/-- C8 (amended): the response confidence equals the classifier's top
score unchanged; it lies in `[0, 1]` exactly when the classifier's top
score does. -/
theorem C8_theorem (env : PredictEnv) (out : ClassifierOut)
    (hl : env.classifierLoaded = true) (hr : env.readResult = Except.ok ())
    (hi : env.inference = Except.ok out) (hu : env.unlink = Except.ok ())
    (h0 : 0 ≤ confidenceOf out.score) (h1 : confidenceOf out.score ≤ 1) :
    ∃ r, (predict_emotion env).response = Except.ok r ∧
      r.confidence = confidenceOf out.score ∧
      0 ≤ r.confidence ∧ r.confidence ≤ 1 := by
  refine ⟨buildResponse out, ?_, rfl, h0, h1⟩
  simp [predict_emotion, hl, hr, hi, hu]

/-- Classifier output of the C8 witness: top score `1`. -/
def c8w_out : ClassifierOut :=
  ⟨OutProb.other, ScoreVal.plain 1, 0, TextLab.text "neu"⟩

/-- Environment of the C8 witness. -/
def c8w_env : PredictEnv :=
  ⟨true, Except.ok (), Except.ok c8w_out, Except.ok ()⟩

/-- C8 witness: concrete in-range top score. -/
theorem C8_witness :
    ∃ r, (predict_emotion c8w_env).response = Except.ok r ∧
      r.confidence = confidenceOf c8w_out.score ∧
      0 ≤ r.confidence ∧ r.confidence ≤ 1 :=
  C8_theorem c8w_env c8w_out rfl rfl rfl rfl zero_le_one le_rfl

/-- C9: the verbatim canonical match is case-sensitive and the table
lookup falls back to the original raw label, so any raw label outside
the canonical set whose lowercase form is not a table key ends up
`neutral` (e.g. `HAPPY`, `Angry`, `Neutral`), while every casing of
`sad` maps to `sad` because its lowercase form is a table key. -/
theorem C9_theorem :
    (∀ s : String, s ∉ EMOTION_LABELS →
      emotion_mapping.lookup (pyLower s) = none → mapEmotion s = "neutral") ∧
    mapEmotion "HAPPY" = "neutral" ∧ mapEmotion "Angry" = "neutral" ∧
    mapEmotion "Neutral" = "neutral" ∧
    mapEmotion "SAD" = "sad" ∧ mapEmotion "SAd" = "sad" ∧
    mapEmotion "SaD" = "sad" ∧ mapEmotion "Sad" = "sad" ∧
    mapEmotion "sAD" = "sad" ∧ mapEmotion "sAd" = "sad" ∧
    mapEmotion "saD" = "sad" ∧ mapEmotion "sad" = "sad" := by
  refine ⟨?_, by decide⟩
  intro s hns hlk
  have hf : emotionFromMapping s = s := by
    unfold emotionFromMapping
    rw [if_neg hns, hlk]
    rfl
  unfold mapEmotion
  rw [hf, if_neg hns]

/-- C9 witness: the differently-cased canonical label `HAPPY` is not a
verbatim match and its lowercase form is not a table key, so it maps to
`neutral`. -/
theorem C9_witness : mapEmotion "HAPPY" = "neutral" :=
  C9_theorem.1 "HAPPY" (by decide) (by decide)

/-- C10: an empty list or tuple as raw label does not make the request
fail — the raw label is normalized to `neutral` and the response's
emotion is `neutral`. -/
theorem C10_theorem (env : PredictEnv) (out : ClassifierOut)
    (hl : env.classifierLoaded = true) (hr : env.readResult = Except.ok ())
    (hi : env.inference = Except.ok out) (ht : out.text_lab = TextLab.seq [])
    (hu : env.unlink = Except.ok ()) :
    ∃ r, (predict_emotion env).response = Except.ok r ∧ r.emotion = "neutral" := by
  refine ⟨buildResponse out, ?_, ?_⟩
  · simp [predict_emotion, hl, hr, hi, hu]
  · show labelOf out.text_lab = "neutral"
    rw [ht]
    decide

/-- Environment of the C10 witness: the classifier returns an empty
sequence as raw label. -/
def c10_env : PredictEnv :=
  ⟨true, Except.ok (),
    Except.ok ⟨OutProb.other, ScoreVal.plain 0, 0, TextLab.seq []⟩,
    Except.ok ()⟩

/-- C10 witness: concrete empty-sequence raw label. -/
theorem C10_witness :
    ∃ r, (predict_emotion c10_env).response = Except.ok r ∧
      r.emotion = "neutral" :=
  C10_theorem c10_env ⟨OutProb.other, ScoreVal.plain 0, 0, TextLab.seq []⟩
    rfl rfl rfl rfl rfl
